import Mathlib

/-!
Shallow embedding of the baseload-analysis core of the OpenEnergyID
repository (`openenergyid.baseload.analysis.BaseloadAnalyzer`).

The staged sources contain the design document for the nighttime-only
baseload mode (with the Python of `_calculate_night_mask`, the
`BaseloadAnalyzer` constructor signature and the filtering step of
`analyze`), the demo notebooks that call the analyzer, and the build
configuration; the body of `analysis.py` itself is not among the staged
files.  Definitions below therefore embed the Python fragments of the
design document where they exist and are otherwise modelled from the
spec, as the doc comments state.

Modelling conventions:
  * timestamps are epoch seconds (`Int`); the IANA timezone of the
    analyzer is modelled as a fixed offset in seconds (DST-irregular
    days are not needed by any property proved here);
  * power and energy values, quantiles, coordinates and solar
    elevations are rationals (`ℚ`), standing in for the floats of the
    Python implementation;
  * the pvlib solar-position computation is an external dependency; it
    enters as an explicit function argument `solar : SolarModel`
    mapping (latitude, longitude, timestamp) to the solar elevation in
    degrees, so that the mask and the pipeline are pure functions of
    that model and their other inputs.
-/

/-- A reading of the prepared power series: an epoch-second timestamp and a
power value in watts. -/
structure Reading where
  timestamp : Int
  power : ℚ
  deriving Repr, DecidableEq

/-- The prepared power series: ordered readings, gaps kept as absence. -/
abbrev PreparedPowerSeries := List Reading

/-- A raw input reading before preparation: a timestamp and either an
energy-per-interval value in kWh or a power value in watts, per the mode. -/
structure InputReading where
  timestamp : Int
  value : ℚ
  deriving Repr, DecidableEq

/-- Input variant of the preparer: energy-per-interval (kWh) or power (W). -/
inductive InputMode where
  | energy
  | power
  deriving Repr, DecidableEq

/-- A geographic location: latitude and longitude in degrees. -/
structure GeoLocation where
  latitude : ℚ
  longitude : ℚ
  deriving Repr, DecidableEq

/-- External solar-position model (pvlib's `get_solarposition` in the code):
latitude, longitude and a timestamp give the solar elevation in degrees. -/
abbrev SolarModel := ℚ → ℚ → Int → ℚ

/-- Embeds `_calculate_night_mask` from the design document in the staged
sources: the boolean mask is `solar_pos.elevation < elevation_threshold`
computed per timestamp, true meaning nighttime.  The pvlib call is the
external `solar` argument. -/
def calculate_night_mask (solar : SolarModel) (timestamps : List Int)
    (latitude longitude : ℚ) (elevation_threshold : ℚ) : List Bool :=
  timestamps.map (fun t => decide (solar latitude longitude t < elevation_threshold))

/-- Timestamps of a list classified as night: those with solar elevation
strictly below the threshold (the filter `analyze` applies in night mode). -/
def nightTimestamps (solar : SolarModel) (timestamps : List Int)
    (latitude longitude : ℚ) (elevation_threshold : ℚ) : List Int :=
  timestamps.filter (fun t => decide (solar latitude longitude t < elevation_threshold))

/-- Configuration failures raised at construction time. -/
inductive ConfigurationError where
  | invalidQuantile
  | invalidCoordinates
  deriving Repr, DecidableEq

/-- The analyzer's validated configuration, per the constructor signature in
the design document: timezone (modelled as an offset in seconds), quantile,
night-only flag, location and solar elevation threshold in degrees. -/
structure BaseloadAnalyzer where
  timezone : Int
  quantile : ℚ
  nighttime_only : Bool
  location : GeoLocation
  solar_elevation_threshold : ℚ
  deriving Repr, DecidableEq

/-- The coordinates construction uses: the supplied pair, or the documented
Brussels default (50.85, 4.35) when the location is unset. -/
def resolvedLocation (location : Option (ℚ × ℚ)) : ℚ × ℚ :=
  location.getD (50.85, 4.35)

/-- Modelled from the spec: fail-fast construction of `BaseloadAnalyzer`.
The design document gives the constructor signature and the location
defaulting (Brussels (50.85, 4.35) when unset); the spec's error taxonomy
gives the construction-time checks: quantile outside (0,1) and invalid
geographic coordinates (latitude outside [−90, 90], longitude outside
[−180, 180]) are `ConfigurationError`s.  The validation bodies are absent
from the staged sources. -/
def BaseloadAnalyzer.make (timezone : Int) (quantile : ℚ) (nighttime_only : Bool)
    (location : Option (ℚ × ℚ)) (solar_elevation_threshold : ℚ) :
    Except ConfigurationError BaseloadAnalyzer :=
  if 0 < quantile ∧ quantile < 1 then
    if -90 ≤ (resolvedLocation location).1 ∧ (resolvedLocation location).1 ≤ 90 ∧
        -180 ≤ (resolvedLocation location).2 ∧ (resolvedLocation location).2 ≤ 180 then
      Except.ok
        { timezone := timezone
          quantile := quantile
          nighttime_only := nighttime_only
          location := { latitude := (resolvedLocation location).1
                        longitude := (resolvedLocation location).2 }
          solar_elevation_threshold := solar_elevation_threshold }
    else Except.error ConfigurationError.invalidCoordinates
  else Except.error ConfigurationError.invalidQuantile

/-- Modelled from the spec: the q-th quantile of a list of values — the
element of the ascending sort whose index is ⌊q·n⌋ clamped into [0, n−1] —
or `none` for an empty list.  The polars `.quantile` call of the
implementation is absent from the staged sources; any index-selection
quantile satisfies the properties proved here. -/
def quantileOf (q : ℚ) (values : List ℚ) : Option ℚ :=
  (values.insertionSort (· ≤ ·)).get?
    (min (q * values.length).floor.toNat (values.length - 1))

/-- Local calendar day of a timestamp under the analyzer's timezone offset:
floor division of the shifted epoch second by 86400. -/
def dayKey (tzOffset : Int) (t : Int) : Int := (t + tzOffset).fdiv 86400

/-- Reporting granularity accepted by `analyze`. -/
inductive Granularity where
  | hour
  | day
  | month
  deriving Repr, DecidableEq

/-- Length of a reporting period in seconds.  Calendar months are modelled
as 30 days; no property proved here depends on month boundaries. -/
def periodSeconds : Granularity → Int
  | Granularity.hour => 3600
  | Granularity.day => 86400
  | Granularity.month => 2592000

/-- Reporting-period bucket of a timestamp: floor division of the shifted
epoch second by the period length. -/
def periodKey (tzOffset : Int) (g : Granularity) (t : Int) : Int :=
  (t + tzOffset).fdiv (periodSeconds g)

/-- First occurrences of each key, in order of appearance (the distinct
group keys of a group-by). -/
def dedupKeys (ks : List Int) : List Int :=
  ks.foldl (fun acc k => if k ∈ acc then acc else acc ++ [k]) []

/-- Power values of the readings of one local calendar day. -/
def readingsOfDay (tzOffset : Int) (s : PreparedPowerSeries) (d : Int) : List ℚ :=
  (s.filter (fun r => dayKey tzOffset r.timestamp = d)).map Reading.power

/-- Modelled from the spec: `DailyBaseload` — the q-th quantile of the day's
power readings, `none` for a day with zero eligible readings. -/
def dailyBaseload (q : ℚ) (tzOffset : Int) (s : PreparedPowerSeries) (d : Int) : Option ℚ :=
  quantileOf q (readingsOfDay tzOffset s d)

/-- The defined values of a list of optional values. -/
def definedVals (xs : List (Option ℚ)) : List ℚ := xs.filterMap id

/-- Arithmetic mean of a list of rationals, `none` for the empty list. -/
def meanOf (xs : List ℚ) : Option ℚ :=
  if xs.isEmpty then none else some (xs.sum / xs.length)

/-- Modelled from the spec: `average_daily_baseload_in_watt` — the
arithmetic mean of the defined daily baseloads, with undefined days
excluded (not counted as zero) and `none` when no day has a defined
value. -/
def averageDailyBaseload (bs : List (Option ℚ)) : Option ℚ :=
  meanOf (definedVals bs)

/-- Energy in kWh of one reading, from its power in watts and the nominal
interval in seconds. -/
def energyOfReading (intervalSeconds : Int) (r : Reading) : ℚ :=
  r.power * intervalSeconds / 3600 / 1000

/-- One row of the output table: the `ReportingPeriod` metrics of the spec,
keyed by the period-start timestamp. -/
structure ReportingPeriod where
  timestamp : Int
  average_daily_baseload_in_watt : Option ℚ
  total_consumption_in_kilowatthour : ℚ
  consumption_due_to_baseload_in_kilowatthour : Option ℚ
  consumption_not_due_to_baseload_in_kilowatthour : Option ℚ
  baseload_ratio : Option ℚ
  deriving Repr, DecidableEq

/-- Local calendar days represented among the readings of one reporting
period. -/
def periodDays (tzOffset : Int) (g : Granularity) (s : PreparedPowerSeries) (p : Int) :
    List Int :=
  dedupKeys ((s.filter (fun r => periodKey tzOffset g r.timestamp = p)).map
    (fun r => dayKey tzOffset r.timestamp))

/-- Modelled from the spec: the metrics of one reporting period — total
consumption as the sum of the period's readings' energies, the average
daily baseload as the mean over the period's days with a defined
`DailyBaseload`, the baseload-attributed energy as that average held over
the whole period, the remainder floored at zero, and the ratio undefined
when the total is zero. -/
def periodRow (q : ℚ) (tzOffset : Int) (g : Granularity) (s : PreparedPowerSeries)
    (intervalSeconds : Int) (p : Int) : ReportingPeriod :=
  let inPeriod := s.filter (fun r => periodKey tzOffset g r.timestamp = p)
  let avg := averageDailyBaseload ((periodDays tzOffset g s p).map (dailyBaseload q tzOffset s))
  let total := (inPeriod.map (energyOfReading intervalSeconds)).sum
  let due := avg.map (fun a => a * (periodSeconds g : ℚ) / 3600 / 1000)
  { timestamp := p * periodSeconds g - tzOffset
    average_daily_baseload_in_watt := avg
    total_consumption_in_kilowatthour := total
    consumption_due_to_baseload_in_kilowatthour := due
    consumption_not_due_to_baseload_in_kilowatthour := due.map (fun d => max 0 (total - d))
    baseload_ratio := if total = 0 then none else due.map (fun d => d / total) }

/-- Spacings between consecutive present timestamps, in seconds. -/
def consecutiveDiffs (timestamps : List Int) : List Int :=
  (timestamps.zip timestamps.tail).map (fun pr => pr.2 - pr.1)

/-- Modelled from the spec: the nominal interval in seconds, inferred as the
typical (median) spacing between consecutive present timestamps rather than
assumed fixed at 15 minutes; `none` when fewer than two timestamps are
present. -/
def inferIntervalSeconds (timestamps : List Int) : Option Int :=
  ((consecutiveDiffs timestamps).insertionSort (· ≤ ·)).get?
    (((consecutiveDiffs timestamps).insertionSort (· ≤ ·)).length / 2)

/-- Energy-to-power conversion of one reading:
`power_watts = energy_kWh × (3600 / interval_seconds) × 1000`. -/
def energyToPower (intervalSeconds : Int) (r : InputReading) : Reading :=
  { timestamp := r.timestamp, power := r.value * (3600 / (intervalSeconds : ℚ)) * 1000 }

/-- Modelled from the spec: `prepare_power_seriespolars` — for power-mode
input the values pass through; for energy-mode input each reading becomes
`power_watts = energy_kWh × (3600 / interval_seconds) × 1000` with the
interval inferred from the data; `none` when no interval can be inferred
or the inferred interval is not positive. -/
def prepare_power_series (mode : InputMode) (s : List InputReading) :
    Option PreparedPowerSeries :=
  match mode with
  | InputMode.power => some (s.map (fun r => { timestamp := r.timestamp, power := r.value }))
  | InputMode.energy =>
    match inferIntervalSeconds (s.map InputReading.timestamp) with
    | none => none
    | some dt =>
      if 0 < dt then some (s.map (energyToPower dt))
      else none

/-- Analysis-stage failures of the spec's error taxonomy. -/
inductive AnalysisError where
  | emptyResultError
  deriving Repr, DecidableEq

/-- The nighttime filter of `analyze` per the design document: keep the
readings whose solar elevation at the analyzer's location is strictly below
the configured threshold. -/
def applyNighttimeFilter (solar : SolarModel) (a : BaseloadAnalyzer)
    (s : PreparedPowerSeries) : PreparedPowerSeries :=
  s.filter (fun r =>
    decide (solar a.location.latitude a.location.longitude r.timestamp <
      a.solar_elevation_threshold))

/-- Modelled from the spec: the pre-existing full-day analysis (the body of
`analyze` after the optional filter).  Per the design document's minimum
data requirements, the existing `_empty_result()` handling returns an empty
result when zero valid readings remain, and callers should check for it;
otherwise one `ReportingPeriod` row is produced per occupied reporting
bucket. -/
def analyzeFullDay (a : BaseloadAnalyzer) (g : Granularity) (s : PreparedPowerSeries) :
    Except AnalysisError (List ReportingPeriod) :=
  if s.isEmpty then Except.ok []
  else
    Except.ok ((dedupKeys (s.map (fun r => periodKey a.timezone g r.timestamp))).map
      (periodRow a.quantile a.timezone g s
        ((inferIntervalSeconds (s.map Reading.timestamp)).getD 900)))

/-- The series the analysis runs on: the night-filtered readings when
`nighttime_only` is enabled, the input unchanged otherwise. -/
def filteredSeries (solar : SolarModel) (a : BaseloadAnalyzer)
    (s : PreparedPowerSeries) : PreparedPowerSeries :=
  if a.nighttime_only then applyNighttimeFilter solar a s else s

/-- Embeds `analyze` from the design document: the nighttime filter is
applied first when `nighttime_only` is enabled, and the pre-existing
analysis continues on the (possibly filtered) series. -/
def analyze (solar : SolarModel) (a : BaseloadAnalyzer) (g : Granularity)
    (s : PreparedPowerSeries) : Except AnalysisError (List ReportingPeriod) :=
  analyzeFullDay a g (filteredSeries solar a s)

/-- The quantile of a nonempty list is one of its elements: the index into
the ascending sort is clamped below the length. -/
lemma quantileOf_mem (q : ℚ) (values : List ℚ) (h : values ≠ []) :
    ∃ b, quantileOf q values = some b ∧ b ∈ values := by
  have hpos : 0 < values.length := List.length_pos.mpr h
  have hlen : (values.insertionSort (· ≤ ·)).length = values.length :=
    List.length_insertionSort (· ≤ ·) values
  have hidx : min (q * values.length).floor.toNat (values.length - 1) <
      (values.insertionSort (· ≤ ·)).length := by
    rw [hlen]
    exact lt_of_le_of_lt (Nat.min_le_right _ _) (Nat.sub_lt hpos one_pos)
  refine ⟨(values.insertionSort (· ≤ ·))[min (q * values.length).floor.toNat
    (values.length - 1)], ?_, ?_⟩
  · unfold quantileOf
    rw [List.get?_eq_getElem?, List.getElem?_eq_getElem hidx]
  · exact (List.perm_insertionSort (· ≤ ·) values).mem_iff.mp (List.getElem_mem hidx)

/-- Claim C2: for every day with at least one eligible reading and every
quantile q ∈ (0,1), the `DailyBaseload` the extractor computes is defined,
at least the minimum and at most the maximum power reading of that day. -/
theorem dailyBaseload_between_min_and_max (q : ℚ) (tzOffset : Int)
    (s : PreparedPowerSeries) (d : Int) (hq0 : 0 < q) (hq1 : q < 1)
    (hne : readingsOfDay tzOffset s d ≠ []) :
    ∃ b, dailyBaseload q tzOffset s d = some b ∧
      (readingsOfDay tzOffset s d).minimum ≤ (b : WithTop ℚ) ∧
      (b : WithBot ℚ) ≤ (readingsOfDay tzOffset s d).maximum := by
  obtain ⟨b, hb, hmem⟩ := quantileOf_mem q (readingsOfDay tzOffset s d) hne
  exact ⟨b, hb, List.minimum_le_of_mem' hmem, List.le_maximum_of_mem' hmem⟩

/-- Witness for claim C2: a concrete three-reading day at quantile 1/20;
the baseload is defined and lies between the day's minimum and maximum. -/
theorem dailyBaseload_between_min_and_max_witness :
    ∃ b, dailyBaseload (1/20) 0
        [{ timestamp := 0, power := 3 }, { timestamp := 900, power := 1 },
         { timestamp := 1800, power := 2 }] 0 = some b ∧
      (readingsOfDay 0
        [{ timestamp := 0, power := 3 }, { timestamp := 900, power := 1 },
         { timestamp := 1800, power := 2 }] 0).minimum ≤ (b : WithTop ℚ) ∧
      (b : WithBot ℚ) ≤ (readingsOfDay 0
        [{ timestamp := 0, power := 3 }, { timestamp := 900, power := 1 },
         { timestamp := 1800, power := 2 }] 0).maximum :=
  dailyBaseload_between_min_and_max (1/20) 0 _ 0 (by norm_num) (by norm_num) (by decide)

/-- Claim C4: pointwise, and with the same length as the timestamp list, the
night mask is true exactly when the solar elevation of the model at that
timestamp and the configured coordinates is strictly below the threshold;
as a Lean function of the solar model, timestamps, coordinates and
threshold it is pure and deterministic by construction. -/
theorem calculate_night_mask_pointwise (solar : SolarModel) (ts : List Int)
    (lat lon th : ℚ) :
    List.Forall₂ (fun t b => b = true ↔ solar lat lon t < th) ts
      (calculate_night_mask solar ts lat lon th) := by
  unfold calculate_night_mask
  rw [List.forall₂_map_right_iff, List.forall₂_same]
  intro t _
  exact decide_eq_true_iff

/-- Claim C5: for a fixed solar model, timestamp list (in particular the
timestamps of any one day) and location, lowering the elevation threshold
never adds night-classified readings: the night-classified timestamps at
the lower threshold are a subset of those at the higher threshold, and the
count of true entries of the mask does not increase. -/
theorem night_threshold_monotone (solar : SolarModel) (ts : List Int)
    (lat lon th1 th2 : ℚ) (h : th1 ≤ th2) :
    nightTimestamps solar ts lat lon th1 ⊆ nightTimestamps solar ts lat lon th2 ∧
    (calculate_night_mask solar ts lat lon th1).count true ≤
      (calculate_night_mask solar ts lat lon th2).count true := by
  have himp : ∀ t : Int, decide (solar lat lon t < th1) = true →
      decide (solar lat lon t < th2) = true := by
    intro t ht
    exact decide_eq_true_iff.mpr (lt_of_lt_of_le (decide_eq_true_iff.mp ht) h)
  constructor
  · exact (List.monotone_filter_right ts himp).subset
  · unfold calculate_night_mask
    rw [List.count_eq_countP, List.count_eq_countP, List.countP_map, List.countP_map]
    exact List.countP_mono_left (fun t _ hdec => by
      simp only [Function.comp] at hdec ⊢
      have h1 : decide (solar lat lon t < th1) = true := by
        simpa using hdec
      simpa using himp t h1)

/-- Witness for claim C5: three concrete timestamps with elevations −10, −3
and 5 degrees; the night sets at thresholds −6 and 0 are nested and the
counts do not increase when the threshold is lowered. -/
theorem night_threshold_monotone_witness :
    nightTimestamps (fun _ _ t => (t : ℚ)) [-10, -3, 5] 50 4 (-6) ⊆
      nightTimestamps (fun _ _ t => (t : ℚ)) [-10, -3, 5] 50 4 0 ∧
    (calculate_night_mask (fun _ _ t => (t : ℚ)) [-10, -3, 5] 50 4 (-6)).count true ≤
      (calculate_night_mask (fun _ _ t => (t : ℚ)) [-10, -3, 5] 50 4 0).count true :=
  night_threshold_monotone (fun _ _ t => (t : ℚ)) [-10, -3, 5] 50 4 (-6) 0 (by norm_num)

/-- Claim C6: construction fails with the quantile `ConfigurationError`
exactly when the quantile lies outside the open interval (0,1); for a
quantile inside (0,1) construction never fails for that reason.  The check
happens in `BaseloadAnalyzer.make`, before any analysis is run. -/
theorem make_quantile_validation (tz : Int) (q : ℚ) (night : Bool)
    (loc : Option (ℚ × ℚ)) (th : ℚ) :
    BaseloadAnalyzer.make tz q night loc th =
        Except.error ConfigurationError.invalidQuantile ↔ ¬(0 < q ∧ q < 1) := by
  unfold BaseloadAnalyzer.make
  split
  · next hq => split <;> simp [hq]
  · next hq => simp [hq]

/-- Claim C7: with night-only mode enabled and the location unset,
construction succeeds and substitutes the Brussels default (50.85, 4.35);
with a latitude outside [−90, 90] construction fails with the coordinate
`ConfigurationError`. -/
theorem make_location_defaulting (tz : Int) (q th : ℚ) (hq : 0 < q ∧ q < 1) :
    (∃ a, BaseloadAnalyzer.make tz q true none th = Except.ok a ∧
      a.location = { latitude := 50.85, longitude := 4.35 } ∧
      a.nighttime_only = true) ∧
    (∀ lat lon : ℚ, ¬(-90 ≤ lat ∧ lat ≤ 90) →
      BaseloadAnalyzer.make tz q true (some (lat, lon)) th =
        Except.error ConfigurationError.invalidCoordinates) := by
  constructor
  · refine ⟨⟨tz, q, true, ⟨50.85, 4.35⟩, th⟩, ?_, rfl, rfl⟩
    unfold BaseloadAnalyzer.make
    rw [if_pos hq, if_pos]
    · simp [resolvedLocation]
    · simp only [resolvedLocation, Option.getD_none]
      norm_num
  · intro lat lon hbad
    unfold BaseloadAnalyzer.make
    rw [if_pos hq, if_neg]
    simp only [resolvedLocation, Option.getD_some]
    tauto

/-- Witness for claim C7: at quantile 1/2 the default construction succeeds
with the Brussels coordinates, and latitude 91 is rejected. -/
theorem make_location_defaulting_witness :
    (∃ a, BaseloadAnalyzer.make 0 (1/2) true none 0 = Except.ok a ∧
      a.location = { latitude := 50.85, longitude := 4.35 } ∧
      a.nighttime_only = true) ∧
    (∀ lat lon : ℚ, ¬(-90 ≤ lat ∧ lat ≤ 90) →
      BaseloadAnalyzer.make 0 (1/2) true (some (lat, lon)) 0 =
        Except.error ConfigurationError.invalidCoordinates) :=
  make_location_defaulting 0 (1/2) 0 (by norm_num)

/-- Claim C3: with `nighttime_only` disabled, `analyze` is the pre-existing
full-day analysis unchanged — the night-filtering branch has no effect on
the output for every solar model, configuration, granularity and input
series. -/
theorem analyze_nighttime_disabled_is_baseline (solar : SolarModel)
    (a : BaseloadAnalyzer) (g : Granularity) (s : PreparedPowerSeries)
    (h : a.nighttime_only = false) :
    analyze solar a g s = analyzeFullDay a g s := by
  simp [analyze, filteredSeries, h]

/-- Witness for claim C3: a concrete two-reading series analyzed with a
night-capable configuration whose `nighttime_only` flag is false. -/
theorem analyze_nighttime_disabled_is_baseline_witness :
    analyze (fun _ _ t => (t : ℚ))
        { timezone := 0, quantile := 1/20, nighttime_only := false,
          location := { latitude := 50.85, longitude := 4.35 },
          solar_elevation_threshold := 0 } Granularity.day
        [{ timestamp := 0, power := 100 }, { timestamp := 900, power := 50 }] =
      analyzeFullDay
        { timezone := 0, quantile := 1/20, nighttime_only := false,
          location := { latitude := 50.85, longitude := 4.35 },
          solar_elevation_threshold := 0 } Granularity.day
        [{ timestamp := 0, power := 100 }, { timestamp := 900, power := 50 }] :=
  analyze_nighttime_disabled_is_baseline _ _ _ _ rfl

/-- Claim C10: with `nighttime_only` disabled on both sides, two analyzers
that agree on timezone and quantile but differ arbitrarily in location and
solar elevation threshold produce identical output on every input — the
nighttime filter is the only consumer of those settings. -/
theorem analyze_ignores_location_when_not_night (solar : SolarModel)
    (a1 a2 : BaseloadAnalyzer) (g : Granularity) (s : PreparedPowerSeries)
    (h1 : a1.nighttime_only = false) (h2 : a2.nighttime_only = false)
    (htz : a1.timezone = a2.timezone) (hq : a1.quantile = a2.quantile) :
    analyze solar a1 g s = analyze solar a2 g s := by
  cases a1
  cases a2
  simp only at h1 h2 htz hq
  subst h1 h2 htz hq
  simp [analyze, filteredSeries, analyzeFullDay]

/-- Witness for claim C10: two concrete analyzers differing in location and
threshold, both with the night mode off, on a two-reading series. -/
theorem analyze_ignores_location_when_not_night_witness :
    analyze (fun _ _ t => (t : ℚ))
        { timezone := 3600, quantile := 1/20, nighttime_only := false,
          location := { latitude := 50.85, longitude := 4.35 },
          solar_elevation_threshold := 0 } Granularity.day
        [{ timestamp := 0, power := 100 }, { timestamp := 900, power := 50 }] =
      analyze (fun _ _ t => (t : ℚ))
        { timezone := 3600, quantile := 1/20, nighttime_only := false,
          location := { latitude := 52.37, longitude := 4.9 },
          solar_elevation_threshold := -6 } Granularity.day
        [{ timestamp := 0, power := 100 }, { timestamp := 900, power := 50 }] :=
  analyze_ignores_location_when_not_night _ _ _ _ _ rfl rfl rfl rfl

/-- Claim C1 as amended: the analysis never raises — for every input it
returns a result — and when the entire input series, after the (optional
nighttime) filtering, contains zero eligible readings it returns the empty
result (zero `ReportingPeriod` rows), which the caller must check for.
Per-day emptiness likewise never raises: it only yields an undefined
`DailyBaseload`.  This follows the design document's minimum-data-
requirements note that the existing `_empty_result()` handling returns an
empty result. -/
theorem analyze_total_emptiness_returns_empty_result (solar : SolarModel)
    (a : BaseloadAnalyzer) (g : Granularity) (s : PreparedPowerSeries) :
    (∃ rows, analyze solar a g s = Except.ok rows) ∧
    (filteredSeries solar a s = [] → analyze solar a g s = Except.ok []) := by
  constructor
  · unfold analyze analyzeFullDay
    split
    · exact ⟨[], rfl⟩
    · exact ⟨_, rfl⟩
  · intro h
    simp [analyze, analyzeFullDay, h]

/-- Counterexample to claim C1 as stated: a one-reading series whose single
reading is filtered out (the solar model reports elevation 10° ≥ the 0°
threshold), so the entire input after filtering contains zero eligible
readings — yet `analyze` returns the empty result `Except.ok []` instead of
raising `EmptyResultError`. -/
theorem analyze_empty_after_filter_no_error :
    filteredSeries (fun _ _ _ => (10 : ℚ))
        { timezone := 0, quantile := 1/20, nighttime_only := true,
          location := { latitude := 50.85, longitude := 4.35 },
          solar_elevation_threshold := 0 }
        [{ timestamp := 0, power := 100 }] = [] ∧
    analyze (fun _ _ _ => (10 : ℚ))
        { timezone := 0, quantile := 1/20, nighttime_only := true,
          location := { latitude := 50.85, longitude := 4.35 },
          solar_elevation_threshold := 0 } Granularity.day
        [{ timestamp := 0, power := 100 }] = Except.ok [] := by
  constructor
  · rfl
  · rfl

/-- Claim C8: for every energy-mode input whose inferred interval is the
positive `dt`, the preparer converts each reading by
`power_watts = energy_kWh × (3600 / interval_seconds) × 1000` with
`interval_seconds = dt`; and the interval is inferred from the data — when
the consecutive spacings of the timestamps are uniformly `d`, the inferred
interval is `d`, whatever the sampling rate, not a fixed 15 minutes. -/
theorem prepare_power_series_energy_conversion (s : List InputReading) (dt : Int)
    (hdt : inferIntervalSeconds (s.map InputReading.timestamp) = some dt)
    (hpos : 0 < dt) :
    prepare_power_series InputMode.energy s = some (s.map (energyToPower dt)) ∧
    ∀ (ts : List Int) (d : Int) (m : Nat), 0 < m →
      consecutiveDiffs ts = List.replicate m d →
      inferIntervalSeconds ts = some d := by
  constructor
  · unfold prepare_power_series
    rw [hdt]
    exact if_pos hpos
  · intro ts d m hm hrep
    have hsort : (List.replicate m d).insertionSort (· ≤ ·) = List.replicate m d := by
      have hperm := List.perm_insertionSort (· ≤ ·) (List.replicate m d)
      have hall : ∀ b ∈ (List.replicate m d).insertionSort (· ≤ ·), b = d := fun b hb =>
        (List.mem_replicate.mp (hperm.mem_iff.mp hb)).2
      calc (List.replicate m d).insertionSort (· ≤ ·)
          = List.replicate ((List.replicate m d).insertionSort (· ≤ ·)).length d :=
            List.eq_replicate_of_mem hall
        _ = List.replicate m d := by
            rw [hperm.length_eq, List.length_replicate]
    unfold inferIntervalSeconds
    rw [hrep, hsort, List.length_replicate, List.get?_eq_getElem?,
      List.getElem?_replicate, if_pos (Nat.div_lt_self hm one_lt_two)]

/-- Witness for claim C8: a 30-minute-cadence energy series of three
readings of 1 kWh; the inferred interval is 1800 s and each reading becomes
1 × (3600/1800) × 1000 = 2000 W (a fixed 15-minute assumption would give
4000 W). -/
theorem prepare_power_series_energy_conversion_witness :
    prepare_power_series InputMode.energy
        [{ timestamp := 0, value := 1 }, { timestamp := 1800, value := 1 },
         { timestamp := 3600, value := 1 }] =
      some ([{ timestamp := 0, value := 1 }, { timestamp := 1800, value := 1 },
         { timestamp := 3600, value := 1 }].map (energyToPower 1800)) :=
  (prepare_power_series_energy_conversion
    [{ timestamp := 0, value := 1 }, { timestamp := 1800, value := 1 },
     { timestamp := 3600, value := 1 }] 1800 (by rfl) (by norm_num)).1

/-- Claim C9: every row `analyze` produces belongs to one occupied
reporting period p, identified by the row's own period-start timestamp
(`row.timestamp = p · periodSeconds g − timezone`), and the row's
`average_daily_baseload_in_watt` field is the arithmetic mean (`meanOf`) of
the daily baseloads over exactly those days of that period whose
`DailyBaseload` is defined (`definedVals` drops the undefined days rather
than counting them as zero), and `meanOf` of an empty list is `none`, so a
period with zero defined days carries an undefined value for this metric. -/
theorem analyze_average_is_mean_of_defined_days (solar : SolarModel)
    (a : BaseloadAnalyzer) (g : Granularity) (s : PreparedPowerSeries)
    (rows : List ReportingPeriod) (h : analyze solar a g s = Except.ok rows) :
    ∀ row ∈ rows, ∃ p : Int,
      row.timestamp = p * periodSeconds g - a.timezone ∧
      p ∈ dedupKeys ((filteredSeries solar a s).map
        (fun r => periodKey a.timezone g r.timestamp)) ∧
      row.average_daily_baseload_in_watt =
        meanOf (definedVals
          ((periodDays a.timezone g (filteredSeries solar a s) p).map
            (dailyBaseload a.quantile a.timezone (filteredSeries solar a s)))) := by
  intro row hrow
  unfold analyze analyzeFullDay at h
  by_cases hemp : (filteredSeries solar a s).isEmpty = true
  · rw [if_pos hemp] at h
    injection h with h2
    subst h2
    exact absurd hrow (List.not_mem_nil row)
  · rw [if_neg hemp] at h
    injection h with h2
    subst h2
    obtain ⟨p, hp, hpe⟩ := List.mem_map.mp hrow
    refine ⟨p, ?_, hp, ?_⟩
    · rw [← hpe]
      rfl
    · rw [← hpe]
      rfl

/-- Concrete configuration for the claim C9 witness: full-day mode, UTC
offset, quantile 1/2. -/
def analyzerC9 : BaseloadAnalyzer :=
  { timezone := 0, quantile := 1/2, nighttime_only := false,
    location := { latitude := 50.85, longitude := 4.35 },
    solar_elevation_threshold := 0 }

/-- Concrete two-reading series for the claim C9 witness. -/
def seriesC9 : PreparedPowerSeries :=
  [{ timestamp := 0, power := 100 }, { timestamp := 900, power := 50 }]

/-- The row list of the concrete analysis of the claim C9 witness. -/
def rowsC9 : List ReportingPeriod :=
  (analyze (fun _ _ _ => (10 : ℚ)) analyzerC9 Granularity.day seriesC9).toOption.getD []

/-- Witness for claim C9: the first row of a concrete one-period analysis
sits in the occupied period its own timestamp names and carries that
period's mean-of-defined-days average. -/
theorem analyze_average_is_mean_of_defined_days_witness :
    ∃ p : Int,
      (rowsC9.get ⟨0, by decide⟩).timestamp =
        p * periodSeconds Granularity.day - analyzerC9.timezone ∧
      p ∈ dedupKeys ((filteredSeries (fun _ _ _ => (10 : ℚ)) analyzerC9 seriesC9).map
        (fun r => periodKey analyzerC9.timezone Granularity.day r.timestamp)) ∧
      (rowsC9.get ⟨0, by decide⟩).average_daily_baseload_in_watt =
        meanOf (definedVals
          ((periodDays analyzerC9.timezone Granularity.day
              (filteredSeries (fun _ _ _ => (10 : ℚ)) analyzerC9 seriesC9) p).map
            (dailyBaseload analyzerC9.quantile analyzerC9.timezone
              (filteredSeries (fun _ _ _ => (10 : ℚ)) analyzerC9 seriesC9)))) :=
  analyze_average_is_mean_of_defined_days (fun _ _ _ => (10 : ℚ)) analyzerC9
    Granularity.day seriesC9 rowsC9 (by rfl) (rowsC9.get ⟨0, by decide⟩)
    (List.get_mem rowsC9 0 (by decide))
